import Mathlib

/-! Breeze title-bar button (breezebutton.cpp)

A shallow embedding of `Breeze::Button`: the colour selection
(`foregroundColor`, `backgroundColor`), the hover animation driver
(`updateAnimationState`), and the painting routines (`paint`, `drawIcon`).

Conventions of the embedding

* `qreal` values are exact rationals.  They are only stored, compared with
  constants and handed to the toolkit; no rounding behaviour is relied on.
* The painter is the list of operations issued on it, in order.
* Toolkit routines whose bodies live in Qt / KDE Frameworks, and constants
  declared in headers other than breezebutton.cpp, are fields of `Toolkit`.
* `DecorationButton::decoration()` is a guarded pointer which is either null or
  the `Breeze::Decoration` handed to the constructor (the constructor takes a
  `Breeze::Decoration *`), so `qobject_cast<Decoration *>(decoration())`
  succeeds exactly when the pointer is non-null.  It is an `Option`.
-/

namespace Breeze

/-! ## Toolkit value types -/

/-- Colour value: `QColor()` is the invalid colour, every other colour carries
its red, green, blue and alpha channels. -/
inductive QColor where
  | invalid
  | rgba (r g b a : Nat)
deriving DecidableEq, Repr

/-- Validity test `QColor::isValid()`. -/
def QColor.isValid : QColor → Bool
  | .invalid => false
  | .rgba _ _ _ _ => true

/-- Point with `qreal` coordinates. -/
structure QPointF where
  x : ℚ
  y : ℚ
deriving DecidableEq, Repr

/-- Size with `qreal` extent. -/
structure QSizeF where
  width : ℚ
  height : ℚ
deriving DecidableEq, Repr

/-- Rectangle with `qreal` coordinates, stored as top-left corner and extent. -/
structure QRectF where
  x : ℚ
  y : ℚ
  width : ℚ
  height : ℚ
deriving DecidableEq, Repr

/-- Integer size. -/
structure QSize where
  width : Int
  height : Int
deriving DecidableEq, Repr

/-- Integer rectangle. -/
structure QRect where
  x : Int
  y : Int
  width : Int
  height : Int
deriving DecidableEq, Repr

/-- Validity test `QSize::isValid()`: both extents are non-negative. -/
def QSize.isValid (s : QSize) : Bool :=
  decide (0 ≤ s.width) && decide (0 ≤ s.height)

/-- Corner accessor `QRectF::topLeft()`. -/
def QRectF.topLeft (r : QRectF) : QPointF := ⟨r.x, r.y⟩

/-- Extent accessor `QRectF::size()`. -/
def QRectF.size (r : QRectF) : QSizeF := ⟨r.width, r.height⟩

/-- Conversion `QRectF(const QRect &)`. -/
def QRect.toRectF (r : QRect) : QRectF := ⟨r.x, r.y, r.width, r.height⟩

/-- Rectangle built from a corner and an integer size, `QRectF(QPointF, QSize)`. -/
def QRectF.ofTopLeftSize (p : QPointF) (s : QSize) : QRectF :=
  ⟨p.x, p.y, s.width, s.height⟩

/-- Palette: the colour of the `QPalette::Foreground` role, and one tag
standing for the colours of all the other roles. -/
structure QPalette where
  foreground : QColor
  others : Nat
deriving DecidableEq, Repr

/-- Call `palette.setColor(QPalette::Foreground, c)`. -/
def QPalette.setColorForeground (p : QPalette) (c : QColor) : QPalette :=
  { p with foreground := c }

/-- Button kinds of `KDecoration2::DecorationButtonType`. -/
inductive DecorationButtonType where
  | Menu
  | ApplicationMenu
  | OnAllDesktops
  | Minimize
  | Maximize
  | Close
  | ContextHelp
  | Shade
  | KeepBelow
  | KeepAbove
  | Custom
deriving DecidableEq, Repr

/-- States of `QAbstractAnimation`. -/
inductive AnimationState where
  | Stopped
  | Paused
  | Running
deriving DecidableEq, Repr

/-- Directions of `QAbstractAnimation`. -/
inductive Direction where
  | Forward
  | Backward
deriving DecidableEq, Repr

/-- Easing curves; only `InOutQuad` is named by the source. -/
inductive EasingCurve where
  | Linear
  | InOutQuad
deriving DecidableEq, Repr

/-- The fields of the `QVariantAnimation` owned by a button. -/
structure QVariantAnimation where
  startValue : Option ℚ
  endValue : Option ℚ
  easingCurve : EasingCurve
  duration : Int
  direction : Direction
  state : AnimationState
deriving DecidableEq, Repr

/-- Window the decoration belongs to, as far as the button reads it. -/
structure DecoratedClient where
  palette : QPalette
  icon : Nat
deriving DecidableEq, Repr

/-- The host decoration as the button sees it: the values returned by its
accessors at the time of the call. -/
structure Decoration where
  client : DecoratedClient
  fontColor : QColor
  titleBarColor : QColor
  animationsDuration : Int
  buttonHeight : Int
deriving DecidableEq, Repr

/-- Button flag `m_flag`.  breezebutton.cpp names `FlagStandalone` and
`FlagFirstInList`; `other` stands for any further enumerator of the header. -/
inductive Flag where
  | FlagStandalone
  | FlagFirstInList
  | other (n : Nat)
deriving DecidableEq, Repr

/-- The state of one `Breeze::Button`: the members of the base class
`KDecoration2::DecorationButton` that the source reads, and its own members. -/
structure Button where
  type : DecorationButtonType
  decoration : Option Decoration
  geometry : QRectF
  hovered : Bool
  pressed : Bool
  checked : Bool
  visible : Bool
  m_animation : QVariantAnimation
  m_flag : Flag
  m_offset : QPointF
  m_iconSize : QSize
  m_opacity : ℚ
deriving DecidableEq, Repr

/-- Routines and constants used by breezebutton.cpp whose definitions are in
Qt, KDE Frameworks or another header of the theme. -/
structure Toolkit where
  /-- The function `QColor::darker(int factor)`. -/
  darker : QColor → Int → QColor
  /-- The function `KColorUtils::mix(c1, c2, bias)`. -/
  mix : QColor → QColor → ℚ → QColor
  /-- The rounding `QSizeF::toSize()`. -/
  toSize : QSizeF → QSize
  /-- The rounding `QRectF::toRect()`. -/
  toRect : QRectF → QRect
  /-- The constant `PenWidth::Symbol`. -/
  penWidthSymbol : ℚ
  /-- The default-constructed palette `QPalette()`. -/
  defaultPalette : QPalette
  /-- The value, if any, that `QVariantAnimation::start()` reports through
  `valueChanged` before it returns. -/
  startValue : QVariantAnimation → Option ℚ

/-! ## Colours -/

/-- The test `type() == Close || type() == Minimize || type() == Maximize`. -/
def isCloseMinMax (t : DecorationButtonType) : Bool :=
  t == .Close || t == .Minimize || t == .Maximize

/-- Embedding of `Button::backgroundColor`, branch by branch. -/
def backgroundColor (T : Toolkit) (b : Button) : QColor :=
  match b.decoration with
  | none => QColor.invalid
  | some d =>
    let _closeColor := QColor.rgba 237 101 90 255
    let _maximizeColor := QColor.rgba 115 190 71 255
    let _minimizeColor := QColor.rgba 224 192 76 255
    if b.pressed then
      if b.type = .Close then d.fontColor
      else if b.type = .Maximize then d.fontColor
      else if b.type = .Minimize then d.fontColor
      else T.mix d.titleBarColor d.fontColor (3 / 10)
    else if (b.type = .KeepBelow ∨ b.type = .KeepAbove ∨ b.type = .Shade) ∧ b.checked = true then
      d.fontColor
    else if b.m_animation.state = .Running then
      if b.type = .Close then d.fontColor
      else if b.type = .Maximize then d.fontColor
      else if b.type = .Minimize then d.fontColor
      else d.fontColor
    else if b.hovered then
      if b.type = .Close then d.fontColor
      else if b.type = .Maximize then d.fontColor
      else if b.type = .Minimize then d.fontColor
      else d.fontColor
    else if b.type = .Close then d.fontColor
    else if b.type = .Maximize then d.fontColor
    else if b.type = .Minimize then d.fontColor
    else d.fontColor

/-- Embedding of `Button::foregroundColor`, branch by branch. -/
def foregroundColor (T : Toolkit) (b : Button) : QColor :=
  match b.decoration with
  | none => QColor.invalid
  | some d =>
    if b.type = .Close ∨ b.type = .Minimize ∨ b.type = .Maximize then
      T.darker (backgroundColor T b) 175
    else if b.pressed then d.titleBarColor
    else if (b.type = .KeepBelow ∨ b.type = .KeepAbove ∨ b.type = .Shade) ∧ b.checked = true then
      d.titleBarColor
    else if b.m_animation.state = .Running then
      T.mix d.fontColor d.titleBarColor b.m_opacity
    else if b.hovered then d.titleBarColor
    else d.fontColor

/-! ## Animation driver -/

/-- Call `QAbstractAnimation::setDirection`: the direction is replaced, the
running state is kept. -/
def QVariantAnimation.setDirection (a : QVariantAnimation) (dir : Direction) :
    QVariantAnimation :=
  { a with direction := dir }

/-- Call `QVariantAnimation::setDuration`: a negative duration is rejected. -/
def QVariantAnimation.setDuration (a : QVariantAnimation) (msecs : Int) :
    QVariantAnimation :=
  if msecs < 0 then a else { a with duration := msecs }

/-- Modelled from the spec: the inline setter `Button::setOpacity` of
breezebutton.h, which is what the `valueChanged` handler installed by the
constructor calls ("the interpolation drives a value callback that stores the
eased [0,1] progress for use by foregroundColor's mix"). -/
def Button.setOpacity (b : Button) (value : ℚ) : Button :=
  { b with m_opacity := value }

/-- Call `QAbstractAnimation::start()` on an animation that is not running.  A
stopped animation is set to the end it starts from and enters `Running`; when
its own duration is not positive that is also the end it runs to, so the run
finishes inside `start()` and the animation is `Stopped` again when the call
returns.  A paused animation resumes. -/
def QVariantAnimation.start (a : QVariantAnimation) : QVariantAnimation :=
  if a.state = .Stopped ∧ a.duration ≤ 0 then { a with state := .Stopped }
  else { a with state := .Running }

/-- Call `m_animation->start()` from the button: the animation is started, and
the value it reports first, if it reports one, reaches `setOpacity` through the
`valueChanged` connection. -/
def Button.startAnimation (T : Toolkit) (b : Button) : Button :=
  let started : Button := { b with m_animation := b.m_animation.start }
  match T.startValue b.m_animation with
  | some value => started.setOpacity value
  | none => started

/-- Embedding of `Button::reconfigure`. -/
def reconfigure (b : Button) : Button :=
  match b.decoration with
  | some d => { b with m_animation := b.m_animation.setDuration d.animationsDuration }
  | none => b

/-- Embedding of `Button::updateAnimationState`. -/
def updateAnimationState (T : Toolkit) (b : Button) (hovered : Bool) : Button :=
  match b.decoration with
  | none => b
  | some d =>
    if ¬ (d.animationsDuration > 0) then b
    else
      let directed : Button :=
        { b with m_animation :=
            b.m_animation.setDirection (if hovered then .Forward else .Backward) }
      if directed.m_animation.state ≠ .Running then directed.startAnimation T
      else directed

/-- The host changes the hover flag and emits `hoveredChanged`, which the
constructor connects to `updateAnimationState`. -/
def hoveredChanged (T : Toolkit) (b : Button) (hovered : Bool) : Button :=
  updateAnimationState T { b with hovered := hovered } hovered

/-- The host moves or resizes the button, `DecorationButton::setGeometry`. -/
def Button.setGeometry (b : Button) (g : QRectF) : Button :=
  { b with geometry := g }

/-! ## Construction -/

/-- Embedding of the constructor `Button(type, decoration, parent)`.  The
argument `pre` is the object as the base-class constructor and the member
initialisers leave it (with the freshly allocated animation); the body then
runs on it.  The decoration pointer is dereferenced unconditionally, so it is
taken non-null. -/
def Button.construct (pre : Button) (type : DecorationButtonType) (d : Decoration) : Button :=
  let animation : QVariantAnimation :=
    { pre.m_animation with
        startValue := some 0, endValue := some 1, easingCurve := .InOutQuad }
  let height : Int := d.buttonHeight
  reconfigure
    { pre with
        type := type
        decoration := some d
        m_animation := animation
        geometry := (QRect.mk 0 0 height height).toRectF
        m_iconSize := ⟨height, height⟩ }

/-- Embedding of the standalone constructor `Button(parent, args)`, with
`args.at(0)` the type and `args.at(1)` the decoration. -/
def Button.constructStandalone (pre : Button) (type : DecorationButtonType)
    (d : Decoration) : Button :=
  { Button.construct pre type d with
      m_flag := .FlagStandalone
      m_iconSize := ⟨-1, -1⟩ }

/-! ## Painting -/

/-- Element of a `QPainterPath`. -/
inductive PathElement where
  | moveTo (x y : ℚ)
  | lineTo (x y : ℚ)
  | arcTo (rect : QRectF) (startAngle sweepLength : ℚ)
  | cubicTo (c1 c2 endPoint : QPointF)
deriving DecidableEq, Repr

/-- Cap styles named by the source. -/
inductive PenCapStyle where
  | SquareCap
  | RoundCap
deriving DecidableEq, Repr

/-- Join styles named by the source. -/
inductive PenJoinStyle where
  | BevelJoin
  | MiterJoin
deriving DecidableEq, Repr

/-- The pen built in `drawIcon`.  The width is `none` when the source divides
by a zero icon width. -/
structure QPen where
  color : QColor
  capStyle : PenCapStyle
  joinStyle : PenJoinStyle
  widthF : Option ℚ
deriving DecidableEq, Repr

/-- Argument of `QPainter::setPen`. -/
inductive PenArg where
  | NoPen
  | pen (p : QPen)
deriving DecidableEq, Repr

/-- Argument of `QPainter::setBrush`. -/
inductive BrushArg where
  | NoBrush
  | solid (c : QColor)
deriving DecidableEq, Repr

/-- One call on the drawing surface. -/
inductive PainterOp where
  | save
  | restore
  | translate (dx dy : ℚ)
  | scale (sx sy : ℚ)
  | setRenderHintsAntialiasing
  | setPen (p : PenArg)
  | setBrush (b : BrushArg)
  | drawEllipse (r : QRectF)
  | drawLine (p1 p2 : QPointF)
  | drawPolygon (points : List QPointF)
  | drawPolyline (points : List QPointF)
  | drawRect (r : QRectF)
  | drawPath (path : List PathElement)
  | fillPath (path : List PathElement) (c : QColor)
  | paintIcon (icon : Nat) (r : QRect)
deriving DecidableEq, Repr

/-- The pen width `PenWidth::Symbol * qMax((qreal)1.25, 20 / width)`. -/
def symbolPenWidth (T : Toolkit) (width : ℚ) : Option ℚ :=
  if width = 0 then none else some (T.penWidthSymbol * max (5 / 4) (20 / width))

/-- The `switch (type())` of `drawIcon`, which draws the mark of each button
kind with the pen `pen` and the colour `foregroundColor`. -/
def drawMark (T : Toolkit) (b : Button) (foregroundColor : QColor) (pen : QPen) :
    List PainterOp :=
  match b.type with
  | .Close =>
    if b.hovered then
      [.drawLine ⟨6, 6⟩ ⟨12, 12⟩, .drawLine ⟨12, 6⟩ ⟨6, 12⟩]
    else []
  | .Maximize =>
    if b.hovered then
      if b.checked then
        [.setPen .NoPen,
         .fillPath [.moveTo 5 9, .lineTo 9 9, .lineTo 9 13, .lineTo 5 9] foregroundColor,
         .setPen .NoPen,
         .fillPath [.moveTo 9 5, .lineTo 9 9, .lineTo 13 9, .lineTo 9 5] foregroundColor]
      else
        [.setPen .NoPen,
         .fillPath [.moveTo 6 8, .lineTo 6 12, .lineTo 10 12, .lineTo 6 8] foregroundColor,
         .setPen .NoPen,
         .fillPath [.moveTo 8 6, .lineTo 12 6, .lineTo 12 10, .lineTo 8 6] foregroundColor]
    else []
  | .Minimize =>
    if b.hovered then [.drawLine ⟨6, 9⟩ ⟨12, 9⟩] else []
  | .OnAllDesktops =>
    [.setPen .NoPen, .setBrush (.solid foregroundColor)] ++
    (if b.checked then
      [.drawEllipse ⟨3, 3, 12, 12⟩] ++
      (let backgroundColor₀ := backgroundColor T b
       let backgroundColor :=
        match b.decoration with
        | some d => if ¬ backgroundColor₀.isValid then d.titleBarColor else backgroundColor₀
        | none => backgroundColor₀
       if backgroundColor.isValid then
        [.setBrush (.solid backgroundColor), .drawEllipse ⟨8, 8, 2, 2⟩]
       else [])
    else
      [.drawPolygon [⟨13 / 2, 17 / 2⟩, ⟨12, 3⟩, ⟨15, 6⟩, ⟨19 / 2, 23 / 2⟩],
       .setPen (.pen pen),
       .drawLine ⟨11 / 2, 15 / 2⟩ ⟨21 / 2, 25 / 2⟩,
       .drawLine ⟨12, 6⟩ ⟨9 / 2, 27 / 2⟩])
  | .Shade =>
    if b.checked then
      [.drawLine ⟨4, 11 / 2⟩ ⟨14, 11 / 2⟩,
       .drawPolyline [⟨4, 8⟩, ⟨9, 13⟩, ⟨14, 8⟩]]
    else
      [.drawLine ⟨4, 11 / 2⟩ ⟨14, 11 / 2⟩,
       .drawPolyline [⟨4, 13⟩, ⟨9, 8⟩, ⟨14, 13⟩]]
  | .KeepBelow =>
    [.drawPolyline [⟨4, 5⟩, ⟨9, 10⟩, ⟨14, 5⟩],
     .drawPolyline [⟨4, 9⟩, ⟨9, 14⟩, ⟨14, 9⟩]]
  | .KeepAbove =>
    [.drawPolyline [⟨4, 9⟩, ⟨9, 4⟩, ⟨14, 9⟩],
     .drawPolyline [⟨4, 13⟩, ⟨9, 8⟩, ⟨14, 13⟩]]
  | .ApplicationMenu =>
    [.drawRect ⟨7 / 2, 9 / 2, 11, 1⟩,
     .drawRect ⟨7 / 2, 17 / 2, 11, 1⟩,
     .drawRect ⟨7 / 2, 25 / 2, 11, 1⟩]
  | .ContextHelp =>
    [.drawPath
       [.moveTo 5 6,
        .arcTo ⟨5, 7 / 2, 8, 5⟩ 180 (-180),
        .cubicTo ⟨25 / 2, 19 / 2⟩ ⟨9, 15 / 2⟩ ⟨9, 23 / 2⟩],
     .drawRect ⟨9, 15, 1 / 2, 1 / 2⟩]
  | _ => []

/-- Embedding of `Button::drawIcon`: the calls it makes on the painter. -/
def drawIcon (T : Toolkit) (b : Button) : List PainterOp :=
  let width : ℚ := b.m_iconSize.width
  let frame : List PainterOp :=
    [.setRenderHintsAntialiasing,
     .translate b.geometry.topLeft.x b.geometry.topLeft.y,
     .scale (width / 20) (width / 20),
     .translate 1 1]
  let backgroundColor := backgroundColor T b
  let background : List PainterOp :=
    if backgroundColor.isValid then
      [.setPen .NoPen,
       .setBrush (.solid backgroundColor),
       if b.type = .Maximize ∨ b.type = .Minimize ∨ b.type = .Close then
         .drawEllipse ⟨2, 2, 14, 14⟩
       else
         .drawEllipse ⟨0, 0, 18, 18⟩]
    else []
  let foregroundColor := foregroundColor T b
  let mark : List PainterOp :=
    if foregroundColor.isValid then
      let pen : QPen :=
        { color := foregroundColor
          capStyle := .RoundCap
          joinStyle := .MiterJoin
          widthF := symbolPenWidth T width }
      [.setPen (.pen pen), .setBrush .NoBrush] ++ drawMark T b foregroundColor pen
    else []
  frame ++ background ++ mark

/-- The process-wide icon loader `KIconLoader::global()`, as far as paint
touches it: the custom palette, when one is set. -/
structure KIconLoader where
  custom : Option QPalette
deriving DecidableEq, Repr

/-- Getter `KIconLoader::customPalette()`: the custom palette, or a default
palette when none is set. -/
def KIconLoader.customPalette (T : Toolkit) (l : KIconLoader) : QPalette :=
  l.custom.getD T.defaultPalette

/-- Setter `KIconLoader::setCustomPalette`. -/
def KIconLoader.setCustomPalette (_l : KIconLoader) (p : QPalette) : KIconLoader :=
  ⟨some p⟩

/-- Call `KIconLoader::resetPalette()`: no custom palette is set afterwards. -/
def KIconLoader.resetPalette (_l : KIconLoader) : KIconLoader :=
  ⟨none⟩

/-- What one call of `paint` leaves behind. -/
structure PaintResult where
  /-- The button after the call. -/
  button : Button
  /-- The process-wide icon loader after the call. -/
  iconLoader : KIconLoader
  /-- The calls made on the painter, in order. -/
  painted : List PainterOp
deriving DecidableEq, Repr

/-- Embedding of `Button::paint`.  The repaint region is unused, as in the
source.  The decoration is a `Breeze::Decoration` whenever it is non-null, so
of the two arms of the cast inside the menu branch only the first is taken. -/
def paint (T : Toolkit) (b : Button) (loader : KIconLoader) (_repaintRegion : QRect) :
    PaintResult :=
  match b.decoration with
  | none => ⟨b, loader, []⟩
  | some d =>
    let opened : List PainterOp :=
      [.save,
       if b.m_flag = .FlagFirstInList then .translate b.m_offset.x b.m_offset.y
       else .translate 0 b.m_offset.y]
    let b : Button :=
      if ¬ b.m_iconSize.isValid then { b with m_iconSize := T.toSize b.geometry.size }
      else b
    if b.type = .Menu then
      let iconRect : QRectF := QRectF.ofTopLeftSize b.geometry.topLeft b.m_iconSize
      let activePalette : QPalette := loader.customPalette T
      let palette : QPalette := d.client.palette.setColorForeground d.fontColor
      let loader := loader.setCustomPalette palette
      let drawn : List PainterOp := [.paintIcon d.client.icon (T.toRect iconRect)]
      let loader :=
        if activePalette = T.defaultPalette then loader.resetPalette
        else loader.setCustomPalette palette
      ⟨b, loader, opened ++ drawn ++ [.restore]⟩
    else
      ⟨b, loader, opened ++ drawIcon T b ++ [.restore]⟩

/-- The host moves the button to `g` and then repaints it; the button and the
icon loader are carried from one repaint to the next. -/
def paintAfterMove (T : Toolkit) (region : QRect) (s : Button × KIconLoader) (g : QRectF) :
    Button × KIconLoader :=
  let r := paint T (s.1.setGeometry g) s.2 region
  (r.button, r.iconLoader)

/-! ## Reference definitions written from the specification -/

/-- Reference definition of the background colour, in the words of the
specification: invalid without a host decoration; the 30% blend of title-bar
colour toward font colour for a pressed button that is not Close, Maximize or
Minimize; the host font colour in every other case. -/
def backgroundColorSpec (T : Toolkit) (b : Button) : QColor :=
  match b.decoration with
  | none => QColor.invalid
  | some d =>
    if b.pressed = true ∧ isCloseMinMax b.type = false then
      T.mix d.titleBarColor d.fontColor (3 / 10)
    else d.fontColor

/-- The colour of the first rule whose condition holds, `otherwise` if none does. -/
def firstMatch (rules : List (Bool × QColor)) (otherwise : QColor) : QColor :=
  match rules.find? (fun r => r.1) with
  | some r => r.2
  | none => otherwise

/-- Reference rules of the foreground colour of a button that is not Close,
Minimize or Maximize, in the order of the specification: pressed; one of
KeepBelow, KeepAbove, Shade and checked; hover animation running; hovered. -/
def foregroundRules (T : Toolkit) (b : Button) (d : Decoration) : List (Bool × QColor) :=
  [(b.pressed, d.titleBarColor),
   (decide (b.type ∈ [DecorationButtonType.KeepBelow, .KeepAbove, .Shade]) && b.checked,
     d.titleBarColor),
   (decide (b.m_animation.state = .Running), T.mix d.fontColor d.titleBarColor b.m_opacity),
   (b.hovered, d.titleBarColor)]

/-! ## Concrete values for running the embedding -/

/-- One toolkit instance for concrete runs.  `darker` scales the colour
channels by `100 / factor` and returns the invalid colour unchanged, as
`QColor::darker` does; `mix` returns an endpoint when the bias is outside the
open unit interval and the channel-wise midpoint of two valid colours
otherwise; the roundings take the nearest integer; a started animation reports
the start value when it runs forward and the end value when it runs backward. -/
def sampleToolkit : Toolkit where
  darker c factor :=
    match c with
    | .invalid => .invalid
    | .rgba r g b a =>
      if factor ≤ 0 then c
      else .rgba (r * 100 / factor.toNat) (g * 100 / factor.toNat) (b * 100 / factor.toNat) a
  mix c1 c2 bias := if bias ≤ 0 then c1 else if 1 ≤ bias then c2 else
    match c1, c2 with
    | .rgba r1 g1 b1 a1, .rgba r2 g2 b2 _ => .rgba ((r1 + r2) / 2) ((g1 + g2) / 2) ((b1 + b2) / 2) a1
    | .rgba r1 g1 b1 a1, .invalid => .rgba r1 g1 b1 a1
    | .invalid, c => c
  toSize s := ⟨⌊s.width + 1 / 2⌋, ⌊s.height + 1 / 2⌋⟩
  toRect r :=
    ⟨⌊r.x + 1 / 2⌋, ⌊r.y + 1 / 2⌋, ⌊r.width + 1 / 2⌋, ⌊r.height + 1 / 2⌋⟩
  penWidthSymbol := 101 / 100
  defaultPalette := ⟨.rgba 0 0 0 255, 0⟩
  startValue a :=
    match a.direction with
    | .Forward => a.startValue
    | .Backward => a.endValue

/-- A host decoration with a light font colour on a dark title bar and
animations enabled. -/
def sampleDecoration : Decoration where
  client := { palette := ⟨.rgba 35 38 41 255, 7⟩, icon := 1 }
  fontColor := .rgba 252 252 252 255
  titleBarColor := .rgba 49 54 59 255
  animationsDuration := 150
  buttonHeight := 18

/-- An idle button of the given kind attached to the given host. -/
def sampleButton (type : DecorationButtonType) (deco : Option Decoration) : Button where
  type := type
  decoration := deco
  geometry := ⟨0, 0, 18, 18⟩
  hovered := false
  pressed := false
  checked := false
  visible := true
  m_animation :=
    { startValue := some 0, endValue := some 1, easingCurve := .InOutQuad,
      duration := 150, direction := .Forward, state := .Stopped }
  m_flag := .other 0
  m_offset := ⟨0, 0⟩
  m_iconSize := ⟨18, 18⟩
  m_opacity := 0

/-- A host whose font colour is the invalid colour while its title-bar colour
is valid. -/
def fontlessDecoration : Decoration :=
  { sampleDecoration with fontColor := .invalid }

/-! ## Theorems -/

theorem isCloseMinMax_iff (t : DecorationButtonType) :
    isCloseMinMax t = true ↔ (t = .Close ∨ t = .Minimize ∨ t = .Maximize) := by
  cases t <;> simp [isCloseMinMax]

theorem backgroundColor_closeMinMax (T : Toolkit) (b : Button) (d : Decoration)
    (htype : b.type = .Close ∨ b.type = .Minimize ∨ b.type = .Maximize)
    (hdeco : b.decoration = some d) : backgroundColor T b = d.fontColor := by
  unfold backgroundColor
  rw [hdeco]
  rcases htype with h | h | h <;> simp [h]

/-- C1: for a Close, Minimize or Maximize button with a host decoration
attached, in every interaction and animation state, `foregroundColor()` is
`backgroundColor().darker(175)`, which is the host font colour darkened. -/
theorem foregroundColor_closeMinMax (T : Toolkit) (b : Button) (d : Decoration)
    (htype : b.type = .Close ∨ b.type = .Minimize ∨ b.type = .Maximize)
    (hdeco : b.decoration = some d) :
    foregroundColor T b = T.darker (backgroundColor T b) 175 ∧
      foregroundColor T b = T.darker d.fontColor 175 := by
  have hfg : foregroundColor T b = T.darker (backgroundColor T b) 175 := by
    unfold foregroundColor
    rw [hdeco]
    simp [htype]
  refine ⟨hfg, ?_⟩
  rw [hfg, backgroundColor_closeMinMax T b d htype hdeco]

theorem foregroundColor_closeMinMax_witness :
    ((sampleButton .Close (some sampleDecoration)).type = .Close ∨
        (sampleButton .Close (some sampleDecoration)).type = .Minimize ∨
        (sampleButton .Close (some sampleDecoration)).type = .Maximize) ∧
      (sampleButton .Close (some sampleDecoration)).decoration = some sampleDecoration ∧
      foregroundColor sampleToolkit (sampleButton .Close (some sampleDecoration)) =
        sampleToolkit.darker
          (backgroundColor sampleToolkit (sampleButton .Close (some sampleDecoration))) 175 ∧
      foregroundColor sampleToolkit (sampleButton .Close (some sampleDecoration)) =
        sampleToolkit.darker sampleDecoration.fontColor 175 :=
  ⟨Or.inl rfl, rfl,
    foregroundColor_closeMinMax sampleToolkit (sampleButton .Close (some sampleDecoration))
      sampleDecoration (Or.inl rfl) rfl⟩

/-- C2: `backgroundColor()` agrees with the reference definition for every
button kind and every state: invalid without a host decoration, the 30% blend
for a pressed button other than Close, Maximize and Minimize, the host font
colour otherwise. -/
theorem backgroundColor_eq_spec (T : Toolkit) (b : Button) :
    backgroundColor T b = backgroundColorSpec T b := by
  unfold backgroundColor backgroundColorSpec
  cases hd : b.decoration with
  | none => rfl
  | some d =>
    cases ht : b.type <;> cases hp : b.pressed <;> simp [isCloseMinMax]

/-- C3: for a button with a host decoration whose kind is not Close, Minimize
or Maximize, `foregroundColor()` is the colour of the first matching rule among
pressed, checked KeepBelow/KeepAbove/Shade, animation running (the mix of font
and title-bar colour at the stored progress) and hovered, and the font colour
if none matches.  Rule by rule: a pressed button gets the title-bar colour
whatever the animation does; an unpressed checked KeepBelow, KeepAbove or Shade
button gets the title-bar colour; failing these a running animation gives the
mix, then hovered gives the title-bar colour, and the idle button gets the font
colour.  With the decoration detached the result is the invalid colour. -/
theorem foregroundColor_first_rule (T : Toolkit) (b : Button) (d : Decoration)
    (hdeco : b.decoration = some d)
    (htype : b.type ≠ .Close ∧ b.type ≠ .Minimize ∧ b.type ≠ .Maximize) :
    foregroundColor T b = firstMatch (foregroundRules T b d) d.fontColor ∧
      (b.pressed = true → foregroundColor T b = d.titleBarColor) ∧
      (b.pressed = false →
        (b.type = .KeepBelow ∨ b.type = .KeepAbove ∨ b.type = .Shade) → b.checked = true →
        foregroundColor T b = d.titleBarColor) ∧
      (b.pressed = false →
        ¬ ((b.type = .KeepBelow ∨ b.type = .KeepAbove ∨ b.type = .Shade) ∧ b.checked = true) →
        (b.m_animation.state = .Running →
          foregroundColor T b = T.mix d.fontColor d.titleBarColor b.m_opacity) ∧
        (b.m_animation.state ≠ .Running → b.hovered = true →
          foregroundColor T b = d.titleBarColor) ∧
        (b.m_animation.state ≠ .Running → b.hovered = false →
          foregroundColor T b = d.fontColor)) ∧
      foregroundColor T { b with decoration := none } = QColor.invalid := by
  obtain ⟨hc, hmin, hmax⟩ := htype
  have hne : ¬ (b.type = .Close ∨ b.type = .Minimize ∨ b.type = .Maximize) := by
    rintro (h | h | h)
    · exact hc h
    · exact hmin h
    · exact hmax h
  have hfg : foregroundColor T b =
      if b.pressed = true then d.titleBarColor
      else if (b.type = .KeepBelow ∨ b.type = .KeepAbove ∨ b.type = .Shade) ∧ b.checked = true
        then d.titleBarColor
      else if b.m_animation.state = .Running then T.mix d.fontColor d.titleBarColor b.m_opacity
      else if b.hovered = true then d.titleBarColor
      else d.fontColor := by
    unfold foregroundColor
    rw [hdeco]
    simp only [hne, if_false]
  refine ⟨?_, ?_, ?_, ?_, rfl⟩
  · rw [hfg]
    cases ht : b.type <;> cases hp : b.pressed <;> cases hk : b.checked <;>
      cases hh : b.hovered <;> by_cases hr : b.m_animation.state = .Running <;>
      simp [firstMatch, foregroundRules, ht, hp, hk, hh, hr]
  · intro hp
    rw [hfg]; simp [hp]
  · intro hp ht hk
    rw [hfg]; simp [hp, ht, hk]
  · intro hp hnk
    rw [hfg]
    simp only [hp, Bool.false_eq_true, if_false, hnk]
    refine ⟨fun hr => by simp [hr], fun hr hh => by simp [hr, hh], fun hr hh => by simp [hr, hh]⟩

theorem foregroundColor_first_rule_witness :
    ({ sampleButton .Shade (some sampleDecoration) with
          checked := true
          hovered := true
          m_animation :=
            { (sampleButton .Shade (some sampleDecoration)).m_animation with state := .Running }
          m_opacity := 1 / 2 } : Button).decoration = some sampleDecoration ∧
      ((DecorationButtonType.Shade ≠ .Close ∧ DecorationButtonType.Shade ≠ .Minimize ∧
          DecorationButtonType.Shade ≠ .Maximize) ∧
        foregroundColor sampleToolkit
            { sampleButton .Shade (some sampleDecoration) with
              checked := true
              hovered := true
              m_animation :=
                { (sampleButton .Shade (some sampleDecoration)).m_animation with
                    state := .Running }
              m_opacity := 1 / 2 } = sampleDecoration.titleBarColor) :=
  ⟨rfl, by decide,
    (foregroundColor_first_rule sampleToolkit
      { sampleButton .Shade (some sampleDecoration) with
        checked := true
        hovered := true
        m_animation :=
          { (sampleButton .Shade (some sampleDecoration)).m_animation with state := .Running }
        m_opacity := 1 / 2 } sampleDecoration rfl (by decide)).2.2.1 rfl
      (Or.inr (Or.inr rfl)) rfl⟩

theorem updateAnimationState_off (T : Toolkit) (b : Button) (hovered : Bool)
    (hoff : ∀ d, b.decoration = some d → d.animationsDuration ≤ 0) :
    updateAnimationState T b hovered = b := by
  unfold updateAnimationState
  cases hd : b.decoration with
  | none => rfl
  | some d =>
    have h := hoff d hd
    simp [not_lt.mpr h]

theorem hoveredChanged_off (T : Toolkit) (b : Button) (hovered : Bool)
    (hoff : ∀ d, b.decoration = some d → d.animationsDuration ≤ 0) :
    hoveredChanged T b hovered = { b with hovered := hovered } := by
  unfold hoveredChanged
  exact updateAnimationState_off T _ hovered hoff

theorem foldl_hoveredChanged_off (T : Toolkit) (toggles : List Bool) (b : Button)
    (hoff : ∀ d, b.decoration = some d → d.animationsDuration ≤ 0) :
    (toggles.foldl (hoveredChanged T) b).m_animation = b.m_animation ∧
      (toggles.foldl (hoveredChanged T) b).m_opacity = b.m_opacity ∧
      (toggles.foldl (hoveredChanged T) b).decoration = b.decoration := by
  induction toggles generalizing b with
  | nil => exact ⟨rfl, rfl, rfl⟩
  | cons h rest ih =>
    rw [List.foldl_cons, hoveredChanged_off T b h hoff]
    exact ih { b with hovered := h } hoff

/-- C4: when the configured animation duration is zero or negative, or no host
decoration is attached, `updateAnimationState(hovered)` returns the button as
it was, and after any sequence of hover changes the animation (running flag,
direction) and the stored progress are what they were, so a stopped animation
is still stopped. -/
theorem updateAnimationState_disabled (T : Toolkit) (b : Button) (hovered : Bool)
    (hoff : ∀ d, b.decoration = some d → d.animationsDuration ≤ 0) :
    updateAnimationState T b hovered = b ∧
      ∀ toggles : List Bool,
        (toggles.foldl (hoveredChanged T) b).m_animation = b.m_animation ∧
          (toggles.foldl (hoveredChanged T) b).m_opacity = b.m_opacity ∧
          (b.m_animation.state = .Stopped →
            (toggles.foldl (hoveredChanged T) b).m_animation.state = .Stopped) := by
  refine ⟨updateAnimationState_off T b hovered hoff, fun toggles => ?_⟩
  obtain ⟨ha, ho, _⟩ := foldl_hoveredChanged_off T toggles b hoff
  exact ⟨ha, ho, fun hs => by rw [ha]; exact hs⟩

theorem updateAnimationState_disabled_witness :
    (∀ d, (sampleButton .Close
          (some { sampleDecoration with animationsDuration := 0 })).decoration = some d →
        d.animationsDuration ≤ 0) ∧
      (updateAnimationState sampleToolkit
          (sampleButton .Close (some { sampleDecoration with animationsDuration := 0 })) true =
        sampleButton .Close (some { sampleDecoration with animationsDuration := 0 }) ∧
      ∀ toggles : List Bool,
        (toggles.foldl (hoveredChanged sampleToolkit)
              (sampleButton .Close
                (some { sampleDecoration with animationsDuration := 0 }))).m_animation =
            (sampleButton .Close
              (some { sampleDecoration with animationsDuration := 0 })).m_animation ∧
          (toggles.foldl (hoveredChanged sampleToolkit)
              (sampleButton .Close
                (some { sampleDecoration with animationsDuration := 0 }))).m_opacity =
            (sampleButton .Close
              (some { sampleDecoration with animationsDuration := 0 })).m_opacity ∧
          ((sampleButton .Close
              (some { sampleDecoration with animationsDuration := 0 })).m_animation.state =
              .Stopped →
            (toggles.foldl (hoveredChanged sampleToolkit)
              (sampleButton .Close
                (some { sampleDecoration with animationsDuration := 0 }))).m_animation.state =
              .Stopped)) :=
  have hoff : ∀ d, (sampleButton .Close
      (some { sampleDecoration with animationsDuration := 0 })).decoration = some d →
      d.animationsDuration ≤ 0 := by
    intro d hd
    cases hd
    decide
  ⟨hoff, updateAnimationState_disabled sampleToolkit _ true hoff⟩

/-- C5 (as amended): with a host decoration whose configured animation duration
is positive, `updateAnimationState(hovered)` sets the direction to Forward for
hovered and Backward otherwise.  It leaves the animation running, unless the
animation was stopped and its own duration (the one copied from the host at the
last reconfigure) is not positive: then the start finishes at once and the
animation is stopped when the call returns.  An animation that was already
running is not started again: the button is as before except for the
direction, and the stored progress is the one from before the call. -/
theorem updateAnimationState_enabled (T : Toolkit) (b : Button) (d : Decoration)
    (hovered : Bool) (hdeco : b.decoration = some d) (hdur : 0 < d.animationsDuration) :
    (updateAnimationState T b hovered).m_animation.direction =
        (if hovered then Direction.Forward else Direction.Backward) ∧
      ((b.m_animation.state ≠ .Stopped ∨ 0 < b.m_animation.duration) →
        (updateAnimationState T b hovered).m_animation.state = .Running) ∧
      ((b.m_animation.state = .Stopped ∧ b.m_animation.duration ≤ 0) →
        (updateAnimationState T b hovered).m_animation.state = .Stopped) ∧
      (b.m_animation.state = .Running →
        updateAnimationState T b hovered =
            { b with m_animation :=
                { b.m_animation with
                    direction := if hovered then Direction.Forward else Direction.Backward } } ∧
          (updateAnimationState T b hovered).m_opacity = b.m_opacity) := by
  unfold updateAnimationState
  rw [hdeco]
  simp only [gt_iff_lt, hdur, not_true_eq_false, if_false, QVariantAnimation.setDirection]
  by_cases hr : b.m_animation.state = .Running
  · simp [hr]
  · simp only [hr, ne_eq, not_false_eq_true, if_true, false_implies, and_true]
    unfold Button.startAnimation QVariantAnimation.start
    by_cases hs : b.m_animation.state = .Stopped ∧ b.m_animation.duration ≤ 0
    · obtain ⟨hs1, hs2⟩ := hs
      cases T.startValue _ <;>
        simp [Button.setOpacity, hs1, hs2, not_lt.mpr hs2]
    · have hs3 : b.m_animation.state ≠ .Stopped ∨ 0 < b.m_animation.duration := by
        by_cases h1 : b.m_animation.state = .Stopped
        · exact Or.inr (not_le.mp (fun h2 => hs ⟨h1, h2⟩))
        · exact Or.inl h1
      cases T.startValue _ <;> simp [Button.setOpacity, hs, hs3]

theorem updateAnimationState_enabled_witness :
    (sampleButton .Close (some sampleDecoration)).decoration = some sampleDecoration ∧
      0 < sampleDecoration.animationsDuration ∧
      ((sampleButton .Close (some sampleDecoration)).m_animation.state ≠ .Stopped ∨
        0 < (sampleButton .Close (some sampleDecoration)).m_animation.duration) ∧
      (updateAnimationState sampleToolkit (sampleButton .Close (some sampleDecoration))
          true).m_animation.direction = Direction.Forward ∧
      (updateAnimationState sampleToolkit (sampleButton .Close (some sampleDecoration))
          true).m_animation.state = .Running :=
  ⟨rfl, by decide, Or.inr (by decide),
    (updateAnimationState_enabled sampleToolkit (sampleButton .Close (some sampleDecoration))
      sampleDecoration true rfl (by decide)).1,
    (updateAnimationState_enabled sampleToolkit (sampleButton .Close (some sampleDecoration))
      sampleDecoration true rfl (by decide)).2.1 (Or.inr (by decide))⟩

/-- C5 (counterexample): a button constructed while the host reported the
animation duration 0 keeps 0 as the duration of its own animation; the host
then reports 150 without a reconfigure.  A hover change passes the guard, sets
the direction and starts the animation, which finishes at once: the animation
is stopped, not running, after `updateAnimationState(true)`. -/
theorem updateAnimationState_stale_duration :
    ({ Button.construct (sampleButton .Close none) .Close
          { sampleDecoration with animationsDuration := 0 } with
        decoration := some sampleDecoration } : Button).decoration = some sampleDecoration ∧
      0 < sampleDecoration.animationsDuration ∧
      ({ Button.construct (sampleButton .Close none) .Close
          { sampleDecoration with animationsDuration := 0 } with
        decoration := some sampleDecoration } : Button).m_animation.duration = 0 ∧
      (updateAnimationState sampleToolkit
        { Button.construct (sampleButton .Close none) .Close
            { sampleDecoration with animationsDuration := 0 } with
          decoration := some sampleDecoration } true).m_animation.direction = .Forward ∧
      (updateAnimationState sampleToolkit
        { Button.construct (sampleButton .Close none) .Close
            { sampleDecoration with animationsDuration := 0 } with
          decoration := some sampleDecoration } true).m_animation.state = .Stopped := by
  decide

/-- C6: without a host decoration, `paint()` makes no call at all on the
drawing surface, returns normally, and leaves the button (every field, the
icon size included) and the icon loader as they were; this for every button
kind and state. -/
theorem paint_without_decoration (T : Toolkit) (b : Button) (loader : KIconLoader)
    (region : QRect) (hdeco : b.decoration = none) :
    paint T b loader region = ⟨b, loader, []⟩ := by
  unfold paint
  rw [hdeco]

theorem paint_without_decoration_witness :
    (sampleButton .Menu none).decoration = none ∧
      paint sampleToolkit (sampleButton .Menu none) ⟨none⟩ ⟨0, 0, 18, 18⟩ =
        ⟨sampleButton .Menu none, ⟨none⟩, []⟩ :=
  ⟨rfl, paint_without_decoration sampleToolkit (sampleButton .Menu none) ⟨none⟩ ⟨0, 0, 18, 18⟩ rfl⟩

theorem reconfigure_decoration (b : Button) : (reconfigure b).decoration = b.decoration := by
  unfold reconfigure
  cases hd : b.decoration <;> simp [hd]

theorem constructStandalone_decoration (pre : Button) (type : DecorationButtonType)
    (d : Decoration) : (Button.constructStandalone pre type d).decoration = some d := by
  simp [Button.constructStandalone, Button.construct, reconfigure_decoration]

theorem paint_button_of_valid (T : Toolkit) (b : Button) (loader : KIconLoader)
    (region : QRect) (hvalid : b.m_iconSize.isValid = true) :
    (paint T b loader region).button = b := by
  unfold paint
  cases hd : b.decoration with
  | none => rfl
  | some d =>
    simp only [hvalid, not_true_eq_false, if_false]
    split_ifs <;> rfl

theorem paint_button_of_invalid (T : Toolkit) (b : Button) (d : Decoration)
    (loader : KIconLoader) (region : QRect) (hdeco : b.decoration = some d)
    (hinvalid : b.m_iconSize.isValid = false) :
    (paint T b loader region).button = { b with m_iconSize := T.toSize b.geometry.size } := by
  unfold paint
  rw [hdeco]
  simp only [hinvalid, Bool.false_eq_true, not_false_eq_true, if_true]
  split_ifs <;> rfl

theorem foldl_paintAfterMove_iconSize (T : Toolkit) (region : QRect) (later : List QRectF)
    (s : Button × KIconLoader) (hvalid : s.1.m_iconSize.isValid = true) :
    (later.foldl (paintAfterMove T region) s).1.m_iconSize = s.1.m_iconSize := by
  induction later generalizing s with
  | nil => rfl
  | cons g rest ih =>
    have hstep : (paintAfterMove T region s g).1 = s.1.setGeometry g := by
      unfold paintAfterMove
      exact paint_button_of_valid T (s.1.setGeometry g) s.2 region hvalid
    have hsize : (paintAfterMove T region s g).1.m_iconSize = s.1.m_iconSize := by
      rw [hstep]; rfl
    rw [List.foldl_cons, ih _ (by rw [hsize]; exact hvalid), hsize]

/-- C7 (as amended): a button built by the standalone constructor has the
invalid icon size (-1, -1); its first `paint()` replaces the icon size by the
current geometry size, whatever that size is; when that size is valid, every
later `paint()` leaves the icon size equal to it, whatever the geometry becomes
in between.  A call of `paint()` writes the icon size only while it is invalid
and changes no other field of the button. -/
theorem standalone_iconSize (T : Toolkit) (pre : Button) (type : DecorationButtonType)
    (d : Decoration) (loader : KIconLoader) (region : QRect) (g : QRectF) :
    (Button.constructStandalone pre type d).m_iconSize = ⟨-1, -1⟩ ∧
      (paintAfterMove T region (Button.constructStandalone pre type d, loader) g).1.m_iconSize =
        T.toSize g.size ∧
      ((T.toSize g.size).isValid = true →
        ∀ later : List QRectF,
          (later.foldl (paintAfterMove T region)
              (paintAfterMove T region
                (Button.constructStandalone pre type d, loader) g)).1.m_iconSize =
            T.toSize g.size) ∧
      ∀ (b : Button) (l : KIconLoader),
        (paint T b l region).button = b ∨
          (b.m_iconSize.isValid = false ∧
            (paint T b l region).button = { b with m_iconSize := T.toSize b.geometry.size }) := by
  have h0 : (Button.constructStandalone pre type d).m_iconSize = ⟨-1, -1⟩ := rfl
  have h1 : (paintAfterMove T region (Button.constructStandalone pre type d, loader) g).1.m_iconSize =
      T.toSize g.size := by
    have hd : ((Button.constructStandalone pre type d).setGeometry g).decoration = some d :=
      constructStandalone_decoration pre type d
    show (paint T ((Button.constructStandalone pre type d).setGeometry g) loader
      region).button.m_iconSize = _
    rw [paint_button_of_invalid T _ d loader region hd (by rfl)]
    rfl
  refine ⟨h0, h1, fun hvalid later => ?_, fun b l => ?_⟩
  · rw [foldl_paintAfterMove_iconSize T region later _ (by rw [h1]; exact hvalid), h1]
  · rcases Bool.eq_false_or_eq_true b.m_iconSize.isValid with hv | hv
    · exact Or.inl (paint_button_of_valid T b l region hv)
    · rcases Option.eq_none_or_eq_some b.decoration with hd | ⟨d0, hd⟩
      · exact Or.inl (by unfold paint; rw [hd])
      · exact Or.inr ⟨hv, paint_button_of_invalid T b d0 l region hd hv⟩

theorem sample_toSize_neg : sampleToolkit.toSize ⟨-1, -1⟩ = ⟨-1, -1⟩ := by
  have h : ⌊(-1 : ℚ) + 1 / 2⌋ = -1 := by
    rw [Int.floor_eq_iff]; norm_num
  show (⟨⌊(-1 : ℚ) + 1 / 2⌋, ⌊(-1 : ℚ) + 1 / 2⌋⟩ : QSize) = _
  rw [h]

theorem sample_toSize_18 : sampleToolkit.toSize ⟨18, 18⟩ = ⟨18, 18⟩ := by
  have h : ⌊(18 : ℚ) + 1 / 2⌋ = 18 := by
    rw [Int.floor_eq_iff]; norm_num
  show (⟨⌊(18 : ℚ) + 1 / 2⌋, ⌊(18 : ℚ) + 1 / 2⌋⟩ : QSize) = _
  rw [h]

theorem standalone_iconSize_witness :
    (sampleToolkit.toSize (QRectF.mk 0 0 18 18).size).isValid = true ∧
      ∀ later : List QRectF,
        (later.foldl (paintAfterMove sampleToolkit ⟨0, 0, 18, 18⟩)
            (paintAfterMove sampleToolkit ⟨0, 0, 18, 18⟩
              (Button.constructStandalone (sampleButton .Close none) .Close sampleDecoration,
                ⟨none⟩) ⟨0, 0, 18, 18⟩)).1.m_iconSize =
          sampleToolkit.toSize (QRectF.mk 0 0 18 18).size :=
  have hv : (sampleToolkit.toSize (QRectF.mk 0 0 18 18).size).isValid = true := by
    simp [QRectF.size, sample_toSize_18, QSize.isValid]
  ⟨hv, (standalone_iconSize sampleToolkit (sampleButton .Close none) .Close sampleDecoration
    ⟨none⟩ ⟨0, 0, 18, 18⟩ ⟨0, 0, 18, 18⟩).2.2.1 hv⟩

/-- C7 (counterexample): a standalone button is first painted while its
geometry has the size (-1, -1), so the icon size written by that paint is the
invalid size (-1, -1); the host then resizes the button to 18 by 18 and the
next `paint()` writes the icon size again: it is (18, 18), not the value left
by the first paint. -/
theorem standalone_iconSize_rewritten :
    (paintAfterMove sampleToolkit ⟨0, 0, 18, 18⟩
        (Button.constructStandalone (sampleButton .Close none) .Close sampleDecoration, ⟨none⟩)
        ⟨0, 0, -1, -1⟩).1.m_iconSize = sampleToolkit.toSize (QRectF.mk 0 0 (-1) (-1)).size ∧
      (paintAfterMove sampleToolkit ⟨0, 0, 18, 18⟩
        (paintAfterMove sampleToolkit ⟨0, 0, 18, 18⟩
          (Button.constructStandalone (sampleButton .Close none) .Close sampleDecoration, ⟨none⟩)
          ⟨0, 0, -1, -1⟩)
        ⟨0, 0, 18, 18⟩).1.m_iconSize = ⟨18, 18⟩ ∧
      sampleToolkit.toSize (QRectF.mk 0 0 (-1) (-1)).size ≠ ⟨18, 18⟩ := by
  have hd : ∀ g, ((Button.constructStandalone (sampleButton .Close none) .Close
      sampleDecoration).setGeometry g).decoration = some sampleDecoration := fun _ =>
    constructStandalone_decoration _ _ _
  have h1 : (paintAfterMove sampleToolkit ⟨0, 0, 18, 18⟩
        (Button.constructStandalone (sampleButton .Close none) .Close sampleDecoration, ⟨none⟩)
        ⟨0, 0, -1, -1⟩).1 =
      { (Button.constructStandalone (sampleButton .Close none) .Close
          sampleDecoration).setGeometry ⟨0, 0, -1, -1⟩ with m_iconSize := ⟨-1, -1⟩ } := by
    show (paint sampleToolkit ((Button.constructStandalone (sampleButton .Close none) .Close
      sampleDecoration).setGeometry ⟨0, 0, -1, -1⟩) ⟨none⟩ ⟨0, 0, 18, 18⟩).button = _
    rw [paint_button_of_invalid sampleToolkit _ sampleDecoration ⟨none⟩ _ (hd _) (by rfl)]
    simp [Button.setGeometry, QRectF.size, sample_toSize_neg]
  refine ⟨?_, ?_, ?_⟩
  · rw [h1]; simp [QRectF.size, sample_toSize_neg]
  · have h2 := paint_button_of_invalid sampleToolkit
      ((paintAfterMove sampleToolkit ⟨0, 0, 18, 18⟩
        (Button.constructStandalone (sampleButton .Close none) .Close sampleDecoration, ⟨none⟩)
        ⟨0, 0, -1, -1⟩).1.setGeometry ⟨0, 0, 18, 18⟩) sampleDecoration
      (paintAfterMove sampleToolkit ⟨0, 0, 18, 18⟩
        (Button.constructStandalone (sampleButton .Close none) .Close sampleDecoration, ⟨none⟩)
        ⟨0, 0, -1, -1⟩).2 ⟨0, 0, 18, 18⟩ (by rw [h1]; exact hd _) (by rw [h1]; rfl)
    show (paint sampleToolkit _ _ _).button.m_iconSize = _
    rw [h2]
    simp [Button.setGeometry, QRectF.size, sample_toSize_18]
  · simp [QRectF.size, sample_toSize_neg]

/-- The three parts of `drawIcon` in order: the frame, the background disc when
`backgroundColor()` is valid, the pen setup and the mark when
`foregroundColor()` is valid. -/
theorem drawIcon_eq (T : Toolkit) (b : Button) :
    drawIcon T b =
      [PainterOp.setRenderHintsAntialiasing,
        PainterOp.translate b.geometry.x b.geometry.y,
        PainterOp.scale ((b.m_iconSize.width : ℚ) / 20) ((b.m_iconSize.width : ℚ) / 20),
        PainterOp.translate 1 1] ++
      (if (backgroundColor T b).isValid = true then
        [PainterOp.setPen .NoPen,
          PainterOp.setBrush (.solid (backgroundColor T b)),
          if b.type = .Maximize ∨ b.type = .Minimize ∨ b.type = .Close then
            PainterOp.drawEllipse ⟨2, 2, 14, 14⟩
          else PainterOp.drawEllipse ⟨0, 0, 18, 18⟩]
      else []) ++
      (if (foregroundColor T b).isValid = true then
        [PainterOp.setPen (.pen ⟨foregroundColor T b, .RoundCap, .MiterJoin,
            symbolPenWidth T (b.m_iconSize.width : ℚ)⟩),
          PainterOp.setBrush .NoBrush] ++
        drawMark T b (foregroundColor T b)
          ⟨foregroundColor T b, .RoundCap, .MiterJoin, symbolPenWidth T (b.m_iconSize.width : ℚ)⟩
      else []) := by
  rfl

/-- C8 (as amended): for a Maximize button with a host decoration attached
and a valid `foregroundColor()`, `drawIcon` sets up the frame, draws the
background disc (2,2,14,14) in the host font colour if that colour is valid,
sets the pen and clears the brush, and then draws as mark: nothing when the
button is not hovered, whatever checked is; when hovered and checked, the two
filled triangles (5,9),(9,9),(9,13) and (9,5),(9,9),(13,9); when hovered and not
checked, the two filled triangles (6,8),(6,12),(10,12) and (8,6),(12,6),(12,10);
each filled with `foregroundColor()`. -/
theorem drawIcon_maximize (T : Toolkit) (b : Button) (d : Decoration)
    (htype : b.type = .Maximize) (hdeco : b.decoration = some d)
    (hfg : (foregroundColor T b).isValid = true) :
    drawIcon T b =
      [PainterOp.setRenderHintsAntialiasing,
        PainterOp.translate b.geometry.x b.geometry.y,
        PainterOp.scale ((b.m_iconSize.width : ℚ) / 20) ((b.m_iconSize.width : ℚ) / 20),
        PainterOp.translate 1 1] ++
      (if d.fontColor.isValid = true then
        [PainterOp.setPen .NoPen,
          PainterOp.setBrush (.solid d.fontColor),
          PainterOp.drawEllipse ⟨2, 2, 14, 14⟩]
      else []) ++
      [PainterOp.setPen (.pen ⟨foregroundColor T b, .RoundCap, .MiterJoin,
          symbolPenWidth T (b.m_iconSize.width : ℚ)⟩),
        PainterOp.setBrush .NoBrush] ++
      (if b.hovered = true then
        if b.checked = true then
          [PainterOp.setPen .NoPen,
            PainterOp.fillPath [.moveTo 5 9, .lineTo 9 9, .lineTo 9 13, .lineTo 5 9]
              (foregroundColor T b),
            PainterOp.setPen .NoPen,
            PainterOp.fillPath [.moveTo 9 5, .lineTo 9 9, .lineTo 13 9, .lineTo 9 5]
              (foregroundColor T b)]
        else
          [PainterOp.setPen .NoPen,
            PainterOp.fillPath [.moveTo 6 8, .lineTo 6 12, .lineTo 10 12, .lineTo 6 8]
              (foregroundColor T b),
            PainterOp.setPen .NoPen,
            PainterOp.fillPath [.moveTo 8 6, .lineTo 12 6, .lineTo 12 10, .lineTo 8 6]
              (foregroundColor T b)]
      else []) := by
  have hbg : backgroundColor T b = d.fontColor :=
    backgroundColor_closeMinMax T b d (Or.inr (Or.inr htype)) hdeco
  rw [drawIcon_eq, hbg]
  simp only [hfg, if_true, htype, true_or, drawMark, List.append_assoc]

theorem drawIcon_maximize_witness :
    ({ sampleButton .Maximize (some sampleDecoration) with
          hovered := true, checked := true } : Button).type = .Maximize ∧
      ({ sampleButton .Maximize (some sampleDecoration) with
          hovered := true, checked := true } : Button).decoration = some sampleDecoration ∧
      (foregroundColor sampleToolkit
          { sampleButton .Maximize (some sampleDecoration) with
            hovered := true, checked := true }).isValid = true ∧
      PainterOp.fillPath [.moveTo 5 9, .lineTo 9 9, .lineTo 9 13, .lineTo 5 9]
          (foregroundColor sampleToolkit
            { sampleButton .Maximize (some sampleDecoration) with
              hovered := true, checked := true }) ∈
        drawIcon sampleToolkit
          { sampleButton .Maximize (some sampleDecoration) with
            hovered := true, checked := true } :=
  ⟨rfl, rfl, by decide, by
    rw [drawIcon_maximize sampleToolkit
      { sampleButton .Maximize (some sampleDecoration) with hovered := true, checked := true }
      sampleDecoration rfl rfl (by decide)]
    simp⟩

/-- C8 (counterexample): a hovered and checked Maximize button whose host
reports the invalid colour as font colour.  Its `backgroundColor()` and its
`foregroundColor()` are invalid, and `drawIcon` stops after setting up the
frame: no disc and no triangle is drawn. -/
theorem drawIcon_maximize_invalid_font :
    ({ sampleButton .Maximize (some fontlessDecoration) with
          hovered := true, checked := true } : Button).decoration = some fontlessDecoration ∧
      (foregroundColor sampleToolkit
          { sampleButton .Maximize (some fontlessDecoration) with
            hovered := true, checked := true }).isValid = false ∧
      drawIcon sampleToolkit
          { sampleButton .Maximize (some fontlessDecoration) with
            hovered := true, checked := true } =
        [PainterOp.setRenderHintsAntialiasing,
          PainterOp.translate 0 0,
          PainterOp.scale (((18 : Int) : ℚ) / 20) (((18 : Int) : ℚ) / 20),
          PainterOp.translate 1 1] := by
  have hfg : foregroundColor sampleToolkit
      { sampleButton .Maximize (some fontlessDecoration) with
        hovered := true, checked := true } = QColor.invalid := by decide
  have hbg : backgroundColor sampleToolkit
      { sampleButton .Maximize (some fontlessDecoration) with
        hovered := true, checked := true } = QColor.invalid := by decide
  refine ⟨rfl, by rw [hfg]; rfl, ?_⟩
  rw [drawIcon_eq, hfg, hbg]
  rfl

/-- C9 (as amended): for an OnAllDesktops button with a host decoration
attached and a valid `foregroundColor()`, `drawIcon` draws as mark, when
checked, the ring ellipse (3,3,12,12) and no diamond or strike line, and when
not checked the diamond polygon and the two strike lines and no ellipse of the
ring/dot pair.  In a checked paint the centre dot (8,8,2,2) is drawn in
`backgroundColor()` when that colour is valid, in the host title-bar colour
when `backgroundColor()` is invalid and the title-bar colour is valid, and not
at all when both are invalid. -/
theorem drawIcon_onAllDesktops (T : Toolkit) (b : Button) (d : Decoration)
    (htype : b.type = .OnAllDesktops) (hdeco : b.decoration = some d)
    (hfg : (foregroundColor T b).isValid = true) :
    drawIcon T b =
      [PainterOp.setRenderHintsAntialiasing,
        PainterOp.translate b.geometry.x b.geometry.y,
        PainterOp.scale ((b.m_iconSize.width : ℚ) / 20) ((b.m_iconSize.width : ℚ) / 20),
        PainterOp.translate 1 1] ++
      (if (backgroundColor T b).isValid = true then
        [PainterOp.setPen .NoPen,
          PainterOp.setBrush (.solid (backgroundColor T b)),
          PainterOp.drawEllipse ⟨0, 0, 18, 18⟩]
      else []) ++
      [PainterOp.setPen (.pen ⟨foregroundColor T b, .RoundCap, .MiterJoin,
          symbolPenWidth T (b.m_iconSize.width : ℚ)⟩),
        PainterOp.setBrush .NoBrush,
        PainterOp.setPen .NoPen,
        PainterOp.setBrush (.solid (foregroundColor T b))] ++
      (if b.checked = true then
        [PainterOp.drawEllipse ⟨3, 3, 12, 12⟩] ++
        (if (backgroundColor T b).isValid = true then
          [PainterOp.setBrush (.solid (backgroundColor T b)),
            PainterOp.drawEllipse ⟨8, 8, 2, 2⟩]
        else if d.titleBarColor.isValid = true then
          [PainterOp.setBrush (.solid d.titleBarColor),
            PainterOp.drawEllipse ⟨8, 8, 2, 2⟩]
        else [])
      else
        [PainterOp.drawPolygon [⟨13 / 2, 17 / 2⟩, ⟨12, 3⟩, ⟨15, 6⟩, ⟨19 / 2, 23 / 2⟩],
          PainterOp.setPen (.pen ⟨foregroundColor T b, .RoundCap, .MiterJoin,
            symbolPenWidth T (b.m_iconSize.width : ℚ)⟩),
          PainterOp.drawLine ⟨11 / 2, 15 / 2⟩ ⟨21 / 2, 25 / 2⟩,
          PainterOp.drawLine ⟨12, 6⟩ ⟨9 / 2, 27 / 2⟩]) := by
  rw [drawIcon_eq]
  simp only [hfg, if_true, htype, drawMark, hdeco, List.append_assoc, reduceCtorEq, or_self,
    if_false]
  cases hbg : (backgroundColor T b).isValid <;> cases hc : b.checked <;> simp [hbg]

theorem drawIcon_onAllDesktops_witness :
    ({ sampleButton .OnAllDesktops (some sampleDecoration) with
          checked := true } : Button).type = .OnAllDesktops ∧
      ({ sampleButton .OnAllDesktops (some sampleDecoration) with
          checked := true } : Button).decoration = some sampleDecoration ∧
      (foregroundColor sampleToolkit
          { sampleButton .OnAllDesktops (some sampleDecoration) with
            checked := true }).isValid = true ∧
      PainterOp.drawEllipse ⟨8, 8, 2, 2⟩ ∈
        drawIcon sampleToolkit
          { sampleButton .OnAllDesktops (some sampleDecoration) with checked := true } :=
  ⟨rfl, rfl, by decide, by
    rw [drawIcon_onAllDesktops sampleToolkit
      { sampleButton .OnAllDesktops (some sampleDecoration) with checked := true }
      sampleDecoration rfl rfl (by decide)]
    have hbg : (backgroundColor sampleToolkit
        { sampleButton .OnAllDesktops (some sampleDecoration) with
          checked := true }).isValid = true := by decide
    simp [hbg]⟩

/-- C9 (counterexample): a hovered and checked OnAllDesktops button whose host
reports the invalid colour as font colour and a valid title-bar colour.
`foregroundColor()` is the title-bar colour and valid, `backgroundColor()` is
the font colour and invalid, so the fallback is taken: the centre dot is drawn
with the brush set to the host title-bar colour. -/
theorem drawIcon_onAllDesktops_fallback :
    (foregroundColor sampleToolkit
        { sampleButton .OnAllDesktops (some fontlessDecoration) with
          hovered := true, checked := true }).isValid = true ∧
      (backgroundColor sampleToolkit
        { sampleButton .OnAllDesktops (some fontlessDecoration) with
          hovered := true, checked := true }).isValid = false ∧
      drawIcon sampleToolkit
          { sampleButton .OnAllDesktops (some fontlessDecoration) with
            hovered := true, checked := true } =
        [PainterOp.setRenderHintsAntialiasing,
          PainterOp.translate 0 0,
          PainterOp.scale (((18 : Int) : ℚ) / 20) (((18 : Int) : ℚ) / 20),
          PainterOp.translate 1 1,
          PainterOp.setPen (.pen ⟨fontlessDecoration.titleBarColor, .RoundCap, .MiterJoin,
            symbolPenWidth sampleToolkit ((18 : Int) : ℚ)⟩),
          PainterOp.setBrush .NoBrush,
          PainterOp.setPen .NoPen,
          PainterOp.setBrush (.solid fontlessDecoration.titleBarColor),
          PainterOp.drawEllipse ⟨3, 3, 12, 12⟩,
          PainterOp.setBrush (.solid fontlessDecoration.titleBarColor),
          PainterOp.drawEllipse ⟨8, 8, 2, 2⟩] := by
  have hfg : foregroundColor sampleToolkit
      { sampleButton .OnAllDesktops (some fontlessDecoration) with
        hovered := true, checked := true } = fontlessDecoration.titleBarColor := by decide
  have hbg : backgroundColor sampleToolkit
      { sampleButton .OnAllDesktops (some fontlessDecoration) with
        hovered := true, checked := true } = QColor.invalid := by decide
  refine ⟨by rw [hfg]; rfl, by rw [hbg]; rfl, ?_⟩
  rw [drawIcon_eq, hfg, hbg]
  simp only [drawMark, hbg]
  rfl

/-- C10 (the code at the failing input): a Menu button is painted while the
icon loader holds a custom palette that differs from the default palette.
After `paint()` the icon loader holds the recoloured palette of the window,
not the palette it held before the call. -/
theorem paint_menu_palette_not_restored :
    (KIconLoader.mk (some ⟨.rgba 1 2 3 255, 9⟩)).customPalette sampleToolkit ≠
        sampleToolkit.defaultPalette ∧
      (paint sampleToolkit (sampleButton .Menu (some sampleDecoration))
          ⟨some ⟨.rgba 1 2 3 255, 9⟩⟩ ⟨0, 0, 18, 18⟩).iconLoader.customPalette sampleToolkit =
        sampleDecoration.client.palette.setColorForeground sampleDecoration.fontColor ∧
      (paint sampleToolkit (sampleButton .Menu (some sampleDecoration))
          ⟨some ⟨.rgba 1 2 3 255, 9⟩⟩ ⟨0, 0, 18, 18⟩).iconLoader.customPalette sampleToolkit ≠
        (KIconLoader.mk (some ⟨.rgba 1 2 3 255, 9⟩)).customPalette sampleToolkit := by
  decide

end Breeze
